import Mathlib

/-!
Shallow embedding of the GCP machine reconciler
(pkg/cloud/gcp/actuators/machine/reconciler.go).

The provider (compute service) and the secret store are modelled as
environments of response functions; repeated calls to the zone-operations
endpoint are modelled as a reply stream indexed by the fetch number.
Errors are a small inductive mirroring the ways the Go code constructs
`error` values; time is discrete with one tick per poll interval.
-/

/-- Go `error` values as the reconciler constructs and inspects them:
a typed `googleapi.Error` carrying an HTTP code, a plain `fmt.Errorf`
message, the structured `apierrors.InvalidMachineConfiguration` domain
error, the aggregate operation error from `waitUntilOperationCompleted`
(preserving the individual messages), and `wait.ErrWaitTimeout`. -/
inductive GoErr where
  | googleapi (code : Nat) (msg : String)
  | errorf (msg : String)
  | invalidMachineConfiguration (msg : String)
  | aggregate (msgs : List String)
  | waitTimeout
deriving DecidableEq, Repr

/-- Rendering of an error by the `%v` verb, used when a wrapped message
embeds an inner error. -/
def renderErr : GoErr → String
  | .googleapi code msg => "googleapi: Error " ++ toString code ++ ": " ++ msg
  | .errorf m => m
  | .invalidMachineConfiguration m => m
  | .aggregate msgs => "the following errors occurred: [" ++ String.intercalate " " msgs ++ "]"
  | .waitTimeout => "timed out waiting for the condition"

/-- `isNotFoundError` (reconciler.go): a dynamic type switch that
recognizes a `*googleapi.Error` with HTTP code 404. -/
def isNotFoundError : GoErr → Bool
  | .googleapi code _ => code == 404
  | _ => false

/-- `compute.AccessConfig`; only `NatIP` is read by the reconciler.
The zero value `{}` is the default (ephemeral external IP) config. -/
structure AccessConfig where
  natIP : String
deriving DecidableEq, Repr

/-- The default access configuration `&compute.AccessConfig{}`. -/
def defaultAccessConfig : AccessConfig := { natIP := "" }

/-- `compute.NetworkInterface` (fields the reconciler reads or writes). -/
structure ComputeNetworkInterface where
  network : String
  subnetwork : String
  networkIP : String
  accessConfigs : List AccessConfig
deriving DecidableEq, Repr

/-- `compute.AttachedDiskInitializeParams`. -/
structure AttachedDiskInitializeParams where
  diskSizeGb : Int
  diskType : String
  labels : List (String × String)
  sourceImage : String
deriving DecidableEq, Repr

/-- `compute.AttachedDisk`. -/
structure AttachedDisk where
  autoDelete : Bool
  boot : Bool
  initializeParams : AttachedDiskInitializeParams
deriving DecidableEq, Repr

/-- `compute.ServiceAccount`. -/
structure ComputeServiceAccount where
  email : String
  scopes : List String
deriving DecidableEq, Repr

/-- `compute.MetadataItems`; `Value` is a `*string`. -/
structure MetadataItems where
  key : String
  value : Option String
deriving DecidableEq, Repr

/-- `compute.Metadata`. -/
structure ComputeMetadata where
  items : List MetadataItems
deriving DecidableEq, Repr

/-- `compute.Instance` (fields the reconciler reads or writes). -/
structure ComputeInstance where
  name : String
  machineType : String
  canIpForward : Bool
  deletionProtection : Bool
  labels : List (String × String)
  tags : List String
  status : String
  disks : List AttachedDisk
  networkInterfaces : List ComputeNetworkInterface
  serviceAccounts : List ComputeServiceAccount
  metadata : Option ComputeMetadata
deriving DecidableEq, Repr

/-- The structured error list on a terminal `compute.Operation`; each
entry is kept as its rendered message (the Go code formats each with
`fmt.Errorf`). -/
structure OperationError where
  errors : List String
deriving DecidableEq, Repr

/-- `compute.Operation` (fields the reconciler reads). -/
structure Operation where
  name : String
  operationType : String
  status : String
  error : Option OperationError
deriving DecidableEq, Repr

/-- `v1.NodeAddress`. -/
structure NodeAddress where
  type : String
  address : String
deriving DecidableEq, Repr

/-- `machine.Status` portion touched by the reconciler. -/
structure MachineStatusObj where
  addresses : List NodeAddress
deriving DecidableEq, Repr

/-- `machine.Spec` portion touched by the reconciler. -/
structure MachineSpecObj where
  providerID : Option String
deriving DecidableEq, Repr

/-- `machinev1.Machine` (fields the reconciler reads or writes). -/
structure Machine where
  name : String
  ns : String
  status : MachineStatusObj
  spec : MachineSpecObj
deriving DecidableEq, Repr

/-- `v1beta1.GCPMachineProviderStatus`. -/
structure GCPMachineProviderStatus where
  instanceState : Option String
  instanceID : Option String
deriving DecidableEq, Repr

/-- `v1beta1.GCPDisk`. -/
structure GCPDisk where
  autoDelete : Bool
  boot : Bool
  sizeGb : Int
  type : String
  image : String
  labels : List (String × String)
deriving DecidableEq, Repr

/-- `v1beta1.GCPNetworkInterface`. -/
structure GCPNetworkInterface where
  network : String
  subnetwork : String
deriving DecidableEq, Repr

/-- `v1beta1.GCPServiceAccount`. -/
structure GCPServiceAccount where
  email : String
  scopes : List String
deriving DecidableEq, Repr

/-- `v1beta1.GCPMetadata`. -/
structure GCPMetadata where
  key : String
  value : Option String
deriving DecidableEq, Repr

/-- `v1beta1.GCPMachineProviderSpec` (fields the reconciler reads).
`userDataSecret` holds the referenced secret name when set. -/
structure GCPMachineProviderSpec where
  zone : String
  region : String
  machineType : String
  labels : List (String × String)
  tags : List String
  canIPForward : Bool
  deletionProtection : Bool
  disks : List GCPDisk
  networkInterfaces : List GCPNetworkInterface
  serviceAccounts : List GCPServiceAccount
  metadata : List GCPMetadata
  userDataSecret : Option String
deriving DecidableEq, Repr

/-- The per-invocation machine scope consumed by the reconciler:
the machine object, the decoded provider spec, the mutable provider
status, and the target identity (project id and derived provider id). -/
structure MachineScope where
  machine : Machine
  providerSpec : GCPMachineProviderSpec
  providerStatus : GCPMachineProviderStatus
  projectID : String
  providerID : String
deriving DecidableEq, Repr

/-- A Kubernetes secret: its `Data` map, each value a byte sequence. -/
structure Secret where
  data : List (String × List Nat)
deriving DecidableEq, Repr

/-- One provider-client or secret-store call, recorded for tracing which
external requests an operation issues. -/
inductive ProviderCall where
  | zonesGet (project zone : String)
  | instancesGet (project zone name : String)
  | instancesInsert (project zone instName : String)
  | instancesDelete (project zone name : String)
  | zoneOperationsGet (project zone opName : String) (fetch : Nat)
  | secretsGet (ns name : String)
deriving DecidableEq, Repr

/-- The external environment: the compute service endpoints and the
secret store. `zoneOperationsGet` is additionally indexed by the fetch
number, so a polled operation may answer differently over time. -/
structure Env where
  instancesGet : String → String → String → Except GoErr ComputeInstance
  instancesInsert : String → String → ComputeInstance → Except GoErr Operation
  instancesDelete : String → String → String → Except GoErr Operation
  zonesGet : String → String → Except GoErr Unit
  zoneOperationsGet : String → String → String → Nat → Except GoErr Operation
  secretsGet : String → String → Except GoErr Secret

/-- `userDataSecretKey` constant. -/
def userDataSecretKey : String := "userData"

/-- `operationTimeOut` constant, in seconds. -/
def operationTimeOut : Nat := 180

/-- `operationRetryWait` constant, in seconds. -/
def operationRetryWait : Nat := 5

/-- Maximum number of condition evaluations `wait.Poll` performs with
interval `operationRetryWait` before the `operationTimeOut` deadline
elapses (one fetch per interval tick). -/
def maxPollAttempts : Nat := operationTimeOut / operationRetryWait

/-- `validateMachine` (reconciler.go): the complementary validation hook;
its body performs no checks and returns nil. -/
def validateMachine (_machine : Machine) (_providerSpec : GCPMachineProviderSpec) :
    Option GoErr :=
  none

/-- Base64 standard alphabet. -/
def base64Alphabet : List Char :=
  [ 'A', 'B', 'C', 'D', 'E', 'F', 'G', 'H', 'I', 'J', 'K', 'L', 'M',
    'N', 'O', 'P', 'Q', 'R', 'S', 'T', 'U', 'V', 'W', 'X', 'Y', 'Z',
    'a', 'b', 'c', 'd', 'e', 'f', 'g', 'h', 'i', 'j', 'k', 'l', 'm',
    'n', 'o', 'p', 'q', 'r', 's', 't', 'u', 'v', 'w', 'x', 'y', 'z',
    '0', '1', '2', '3', '4', '5', '6', '7', '8', '9', '+', '/' ]

/-- Character of the standard base64 alphabet at a 6-bit index. -/
def b64Char (n : Nat) : Char := base64Alphabet.getD n 'A'

/-- Encode one final group of 1..3 bytes as 4 output characters with
`=` padding, as `base64.StdEncoding` does. -/
def base64Chunk : List Nat → List Char
  | [b0] =>
    let n := (b0 % 256) * 65536
    [b64Char (n / 262144 % 64), b64Char (n / 4096 % 64), '=', '=']
  | [b0, b1] =>
    let n := (b0 % 256) * 65536 + (b1 % 256) * 256
    [b64Char (n / 262144 % 64), b64Char (n / 4096 % 64), b64Char (n / 64 % 64), '=']
  | [b0, b1, b2] =>
    let n := (b0 % 256) * 65536 + (b1 % 256) * 256 + b2 % 256
    [b64Char (n / 262144 % 64), b64Char (n / 4096 % 64), b64Char (n / 64 % 64),
      b64Char (n % 64)]
  | _ => []

/-- `base64.StdEncoding.EncodeToString` on a byte sequence. -/
def base64Encode (data : List Nat) : String :=
  String.mk ((data.toChunks 3).map base64Chunk).flatten

/-- `getCustomUserData` (reconciler.go): empty string when no secret is
referenced; otherwise fetch the secret, read the well-known key, and
base64-encode its bytes. Returns the result with the calls issued. -/
def getCustomUserData (env : Env) (s : MachineScope) :
    Except GoErr String × List ProviderCall :=
  match s.providerSpec.userDataSecret with
  | none => (Except.ok "", [])
  | some secretName =>
    match env.secretsGet s.machine.ns secretName with
    | Except.error e =>
      (Except.error (GoErr.errorf ("error getting user data secret " ++ secretName ++
        " in namespace " ++ s.machine.ns ++ ": " ++ renderErr e)),
       [ProviderCall.secretsGet s.machine.ns secretName])
    | Except.ok secret =>
      match secret.data.lookup userDataSecretKey with
      | none =>
        (Except.error (GoErr.errorf ("secret " ++ s.machine.ns ++ "/" ++ secretName ++
          " does not have userData field set. Thus, no user data applied when creating an instance")),
         [ProviderCall.secretsGet s.machine.ns secretName])
      | some data =>
        (Except.ok (base64Encode data),
         [ProviderCall.secretsGet s.machine.ns secretName])

/-- Loop body of the disks translation in `create`: one spec disk to one
attached-disk descriptor. -/
def toAttachedDisk (zone : String) (disk : GCPDisk) : AttachedDisk :=
  { autoDelete := disk.autoDelete
    boot := disk.boot
    initializeParams :=
      { diskSizeGb := disk.sizeGb
        diskType := "zones/" ++ zone ++ "/diskTypes/" ++ disk.type
        labels := disk.labels
        sourceImage := disk.image } }

/-- Loop body of the networking translation in `create`: one spec
network interface to one provider interface carrying the single default
access configuration. -/
def toComputeNIC (projectID region : String) (nic : GCPNetworkInterface) :
    ComputeNetworkInterface :=
  { network :=
      if nic.network.length ≠ 0 then
        "projects/" ++ projectID ++ "/global/networks/" ++ nic.network
      else ""
    subnetwork :=
      if nic.subnetwork.length ≠ 0 then
        "regions/" ++ region ++ "/subnetworks/" ++ nic.subnetwork
      else ""
    networkIP := ""
    accessConfigs := [defaultAccessConfig] }

/-- The `compute.Instance` descriptor assembled by `create`
(reconciler.go lines 66-138) from the provider spec and the fetched
user data string. -/
def buildInstance (s : MachineScope) (userData : String) : ComputeInstance :=
  let zone := s.providerSpec.zone
  { name := s.machine.name
    machineType := "zones/" ++ zone ++ "/machineTypes/" ++ s.providerSpec.machineType
    canIpForward := s.providerSpec.canIPForward
    deletionProtection := s.providerSpec.deletionProtection
    labels := s.providerSpec.labels
    tags := s.providerSpec.tags
    status := ""
    disks := s.providerSpec.disks.map (toAttachedDisk zone)
    networkInterfaces :=
      s.providerSpec.networkInterfaces.map (toComputeNIC s.projectID s.providerSpec.region)
    serviceAccounts := s.providerSpec.serviceAccounts.map (fun sa =>
      { email := sa.email, scopes := sa.scopes })
    metadata := some
      { items := { key := "user-data", value := some userData } ::
          s.providerSpec.metadata.map (fun m => { key := m.key, value := m.value }) } }

/-- Outcome of one run of the polling loop in
`waitUntilOperationCompleted`. -/
inductive PollOutcome where
  | success (op : Operation)
  | fetchError (e : GoErr)
  | operationFailed (msgs : List String)
  | timedOut
deriving DecidableEq, Repr

/-- A poll run together with the number of operation fetches it issued. -/
structure PollTrace where
  outcome : PollOutcome
  fetches : Nat
deriving DecidableEq, Repr

/-- The `wait.Poll` condition loop of `waitUntilOperationCompleted`:
fetch the operation; a fetch error aborts, a non-"DONE" status continues
polling after the interval, "DONE" without errors succeeds, and "DONE"
with errors aborts carrying every reported message. `fuel` is the number
of interval ticks left before the deadline; `i` the fetch index. -/
def pollFrom (fetch : Nat → Except GoErr Operation) : Nat → Nat → PollTrace
  | 0, i => { outcome := PollOutcome.timedOut, fetches := i }
  | fuel + 1, i =>
    match fetch i with
    | Except.error e => { outcome := PollOutcome.fetchError e, fetches := i + 1 }
    | Except.ok op =>
      if op.status = "DONE" then
        match op.error with
        | none => { outcome := PollOutcome.success op, fetches := i + 1 }
        | some oe => { outcome := PollOutcome.operationFailed oe.errors, fetches := i + 1 }
      else
        pollFrom fetch fuel (i + 1)

/-- `waitUntilOperationCompleted` (reconciler.go): poll the named zone
operation every `operationRetryWait` seconds up to the
`operationTimeOut` deadline. -/
def waitUntilOperationCompleted (env : Env) (projectID zone operationName : String) :
    PollTrace :=
  pollFrom (fun i => env.zoneOperationsGet projectID zone operationName i)
    maxPollAttempts 0

/-- The error value `wait.Poll` hands back to the caller for a given
poll outcome: nothing on success, the fetch error itself, the aggregate
of the operation's reported messages, or the timeout error. -/
def pollErr : PollOutcome → Option GoErr
  | PollOutcome.success _ => none
  | PollOutcome.fetchError e => some e
  | PollOutcome.operationFailed msgs => some (GoErr.aggregate msgs)
  | PollOutcome.timedOut => some GoErr.waitTimeout

/-- The calls a poll run issues: one zone-operations fetch per attempt. -/
def pollCalls (projectID zone operationName : String) (fetches : Nat) :
    List ProviderCall :=
  (List.range fetches).map (fun i =>
    ProviderCall.zoneOperationsGet projectID zone operationName i)

/-- `reconcileMachineWithCloudState` (reconciler.go): fetch the current
instance, require at least one network interface, and rewrite the node
addresses (internal IP first, then one external IP per access config in
provider order), the provider status (instance state and id) and the
machine's provider ID. On any failure the scope is returned unchanged. -/
def reconcileMachineWithCloudState (env : Env) (s : MachineScope) :
    MachineScope × Option GoErr × List ProviderCall :=
  let getCall := ProviderCall.instancesGet s.projectID s.providerSpec.zone s.machine.name
  match env.instancesGet s.projectID s.providerSpec.zone s.machine.name with
  | Except.error e =>
    (s, some (GoErr.errorf ("failed to get instance via compute service: " ++ renderErr e)),
     [getCall])
  | Except.ok freshInstance =>
    match freshInstance.networkInterfaces with
    | [] =>
      (s, some (GoErr.errorf ("could not find network interfaces for instance " ++
        freshInstance.name)), [getCall])
    | networkInterface :: _ =>
      let nodeAddresses :=
        { type := "InternalIP", address := networkInterface.networkIP } ::
          networkInterface.accessConfigs.map (fun config =>
            ({ type := "ExternalIP", address := config.natIP } : NodeAddress))
      ({ s with
          machine :=
            { s.machine with
                status := { addresses := nodeAddresses }
                spec := { providerID := some s.providerID } }
          providerStatus :=
            { instanceState := some freshInstance.status
              instanceID := some freshInstance.name } },
       none, [getCall])

/-- `update` (reconciler.go): exactly a cloud-state refresh. -/
def update (env : Env) (s : MachineScope) :
    MachineScope × Option GoErr × List ProviderCall :=
  reconcileMachineWithCloudState env s

/-- The body of `create` before its deferred refresh runs: validate,
fetch user data, build the descriptor, submit the insert, and poll the
returned operation. Returns the error result and the calls issued. -/
def createBody (env : Env) (s : MachineScope) : Option GoErr × List ProviderCall :=
  match validateMachine s.machine s.providerSpec with
  | some e =>
    (some (GoErr.invalidMachineConfiguration
      ("error decoding MachineProviderConfig: " ++ renderErr e)), [])
  | none =>
    let zone := s.providerSpec.zone
    let ud := getCustomUserData env s
    match ud.1 with
    | Except.error e =>
      (some (GoErr.errorf ("error getting custom user data: " ++ renderErr e)), ud.2)
    | Except.ok userData =>
      let inst := buildInstance s userData
      match env.instancesInsert s.projectID zone inst with
      | Except.error e =>
        (some (GoErr.errorf ("failed to create instance via compute service: " ++
          renderErr e)),
         ud.2 ++ [ProviderCall.instancesInsert s.projectID zone inst.name])
      | Except.ok operation =>
        let tr := waitUntilOperationCompleted env s.projectID zone operation.name
        let calls := ud.2 ++ [ProviderCall.instancesInsert s.projectID zone inst.name] ++
          pollCalls s.projectID zone operation.name tr.fetches
        match pollErr tr.outcome with
        | some e =>
          (some (GoErr.errorf ("failed to wait for create operation via compute service. Error: " ++
            renderErr e)), calls)
        | none => (none, calls)

/-- `create` (reconciler.go): run the body; the deferred
`reconcileMachineWithCloudState` then runs on every exit path, its error
discarded, and only it mutates the scope. -/
def create (env : Env) (s : MachineScope) :
    MachineScope × Option GoErr × List ProviderCall :=
  let body := createBody env s
  let refresh := reconcileMachineWithCloudState env s
  (refresh.1, body.1, body.2 ++ refresh.2.2)

/-- `exists` (reconciler.go): validate, verify the project/zone pair via
`ZonesGet` (an invalid project/zone produces the same 404 as a missing
machine), then query the instance: found yields `(true, nil)`, a
not-found error yields `(false, nil)`, anything else a non-nil error. -/
def existsR (env : Env) (s : MachineScope) :
    (Bool × Option GoErr) × List ProviderCall :=
  match validateMachine s.machine s.providerSpec with
  | some e =>
    ((false, some (GoErr.errorf ("failed validating machine provider spec: " ++
      renderErr e))), [])
  | none =>
    let zone := s.providerSpec.zone
    let zoneCall := ProviderCall.zonesGet s.projectID zone
    match env.zonesGet s.projectID zone with
    | Except.error e =>
      ((false, some (GoErr.errorf ("unable to verify project/zone exists: " ++
        s.projectID ++ "/" ++ zone ++ "; err: " ++ renderErr e))), [zoneCall])
    | Except.ok _ =>
      let getCall := ProviderCall.instancesGet s.projectID zone s.machine.name
      match env.instancesGet s.projectID zone s.machine.name with
      | Except.ok _ => ((true, none), [zoneCall, getCall])
      | Except.error e =>
        if isNotFoundError e then ((false, none), [zoneCall, getCall])
        else
          ((false, some (GoErr.errorf ("error getting running instances: " ++
            renderErr e))), [zoneCall, getCall])

/-- `delete` (reconciler.go): call `exists` first; propagate its error;
succeed as a no-op when absent; otherwise submit the delete and poll the
returned operation with the same poller as `create`. -/
def deleteR (env : Env) (s : MachineScope) : Option GoErr × List ProviderCall :=
  let ex := existsR env s
  match ex.1.2 with
  | some e => (some e, ex.2)
  | none =>
    if ex.1.1 = false then (none, ex.2)
    else
      let zone := s.providerSpec.zone
      match env.instancesDelete s.projectID zone s.machine.name with
      | Except.error e =>
        (some (GoErr.errorf ("failed to delete instance via compute service: " ++
          renderErr e)),
         ex.2 ++ [ProviderCall.instancesDelete s.projectID zone s.machine.name])
      | Except.ok operation =>
        let tr := waitUntilOperationCompleted env s.projectID zone operation.name
        let calls := ex.2 ++ [ProviderCall.instancesDelete s.projectID zone s.machine.name] ++
          pollCalls s.projectID zone operation.name tr.fetches
        match pollErr tr.outcome with
        | some e =>
          (some (GoErr.errorf ("failed to wait for delete operation via compute service. Error: " ++
            renderErr e)), calls)
        | none => (none, calls)

/-- A fetch reply that does not end the poll loop: a successfully
fetched operation whose status is not yet terminal. -/
def Nonterm (fetch : Nat → Except GoErr Operation) (i : Nat) : Prop :=
  ∃ op, fetch i = Except.ok op ∧ op.status ≠ "DONE"

/-! ## Shared lemmas -/

theorem pollFrom_skip (fetch : Nat → Except GoErr Operation) (fuel i : Nat)
    (op : Operation) (hop : fetch i = Except.ok op) (hst : op.status ≠ "DONE") :
    pollFrom fetch (fuel + 1) i = pollFrom fetch fuel (i + 1) := by
  simp [pollFrom, hop, hst]

theorem pollFrom_of_nonterm (fetch : Nat → Except GoErr Operation) :
    ∀ (N fuel i : Nat), (∀ j, j < N → Nonterm fetch (i + j)) → N ≤ fuel →
      pollFrom fetch fuel i = pollFrom fetch (fuel - N) (i + N) := by
  intro N
  induction N with
  | zero => intro fuel i _ _; simp
  | succ N ih =>
    intro fuel i h hfuel
    cases fuel with
    | zero => omega
    | succ f =>
      obtain ⟨op, hop, hst⟩ := h 0 (by omega)
      rw [Nat.add_zero] at hop
      rw [pollFrom_skip fetch f i op hop hst]
      have step := ih f (i + 1) (fun j hj => by
        have hx := h (j + 1) (by omega)
        have : i + (j + 1) = i + 1 + j := by omega
        rwa [this] at hx) (by omega)
      rw [step]
      have h1 : f - N = f + 1 - (N + 1) := by omega
      have h2 : i + 1 + N = i + (N + 1) := by omega
      rw [h1, h2]

theorem reconcile_calls (env : Env) (s : MachineScope) :
    (reconcileMachineWithCloudState env s).2.2 =
      [ProviderCall.instancesGet s.projectID s.providerSpec.zone s.machine.name] := by
  unfold reconcileMachineWithCloudState
  cases hget : env.instancesGet s.projectID s.providerSpec.zone s.machine.name with
  | error e => simp
  | ok inst =>
    cases hni : inst.networkInterfaces with
    | nil => simp [hni]
    | cons ni rest => simp [hni]

/-! ## Claims -/

/-- C3: the operation poller propagates a fetch error on the first failed
fetch, keeps polling while the status is not terminal, returns success on
the first terminal reply with no errors after exactly N+1 fetches when N
non-terminal replies precede it, aborts with an aggregate preserving every
reported message when the terminal reply carries errors, and times out
after deadline/interval (180/5 = 36) fetches when no reply turns
terminal. -/
theorem c3_waitUntilOperationCompleted_spec (env : Env) (p z opName : String) (N : Nat) :
    (operationTimeOut = 180 ∧ operationRetryWait = 5 ∧ maxPollAttempts = 36) ∧
    (N < maxPollAttempts →
      (∀ j, j < N → Nonterm (env.zoneOperationsGet p z opName) j) →
      ((∀ op, env.zoneOperationsGet p z opName N = Except.ok op → op.status = "DONE" →
          op.error = none →
          waitUntilOperationCompleted env p z opName =
            { outcome := PollOutcome.success op, fetches := N + 1 } ∧
          pollErr (waitUntilOperationCompleted env p z opName).outcome = none) ∧
       (∀ e, env.zoneOperationsGet p z opName N = Except.error e →
          waitUntilOperationCompleted env p z opName =
            { outcome := PollOutcome.fetchError e, fetches := N + 1 } ∧
          pollErr (waitUntilOperationCompleted env p z opName).outcome = some e) ∧
       (∀ op oe, env.zoneOperationsGet p z opName N = Except.ok op → op.status = "DONE" →
          op.error = some oe →
          waitUntilOperationCompleted env p z opName =
            { outcome := PollOutcome.operationFailed oe.errors, fetches := N + 1 } ∧
          pollErr (waitUntilOperationCompleted env p z opName).outcome =
            some (GoErr.aggregate oe.errors)))) ∧
    ((∀ j, j < maxPollAttempts → Nonterm (env.zoneOperationsGet p z opName) j) →
      waitUntilOperationCompleted env p z opName =
        { outcome := PollOutcome.timedOut, fetches := maxPollAttempts }) := by
  refine ⟨⟨rfl, rfl, rfl⟩, ?_, ?_⟩
  · intro hN hnt
    have key := pollFrom_of_nonterm (env.zoneOperationsGet p z opName) N maxPollAttempts 0
      (fun j hj => by simpa using hnt j hj) (Nat.le_of_lt hN)
    rw [Nat.zero_add] at key
    obtain ⟨k, hk⟩ : ∃ k, maxPollAttempts - N = k + 1 := ⟨maxPollAttempts - N - 1, by omega⟩
    rw [hk] at key
    unfold waitUntilOperationCompleted
    refine ⟨?_, ?_, ?_⟩
    · intro op hop hst herr
      rw [key]
      constructor
      · simp [pollFrom, hop, hst, herr]
      · simp [pollFrom, hop, hst, herr, pollErr]
    · intro e he
      rw [key]
      constructor
      · simp [pollFrom, he]
      · simp [pollFrom, he, pollErr]
    · intro op oe hop hst herr
      rw [key]
      constructor
      · simp [pollFrom, hop, hst, herr]
      · simp [pollFrom, hop, hst, herr, pollErr]
  · intro hnt
    have key := pollFrom_of_nonterm (env.zoneOperationsGet p z opName) maxPollAttempts
      maxPollAttempts 0 (fun j hj => by simpa using hnt j hj) (Nat.le_refl _)
    rw [Nat.zero_add, Nat.sub_self] at key
    unfold waitUntilOperationCompleted
    rw [key]
    simp [pollFrom]

/-! ## Concrete fixtures for witnesses -/

def sampleNic : ComputeNetworkInterface :=
  { network := "", subnetwork := "", networkIP := "10.0.0.15",
    accessConfigs := [{ natIP := "35.243.147.143" }] }

def sampleInstance : ComputeInstance :=
  { name := "testInstance", machineType := "", canIpForward := false,
    deletionProtection := false, labels := [], tags := [], status := "RUNNING",
    disks := [], networkInterfaces := [sampleNic], serviceAccounts := [],
    metadata := none }

def doneOp : Operation :=
  { name := "op-1", operationType := "insert", status := "DONE", error := none }

def pendingOp : Operation :=
  { name := "op-1", operationType := "insert", status := "PENDING", error := none }

def sampleSpec : GCPMachineProviderSpec :=
  { zone := "us-east1-b", region := "us-east1", machineType := "n1-standard-1",
    labels := [], tags := [], canIPForward := false, deletionProtection := false,
    disks := [], networkInterfaces := [], serviceAccounts := [], metadata := [],
    userDataSecret := none }

def sampleScope : MachineScope :=
  { machine :=
      { name := "testInstance", ns := "default",
        status := { addresses := [] }, spec := { providerID := none } }
    providerSpec := sampleSpec
    providerStatus := { instanceState := none, instanceID := none }
    projectID := "testProject"
    providerID := "gce://testProject/us-east1-b/testInstance" }

def sampleEnv : Env :=
  { instancesGet := fun _ _ _ => Except.ok sampleInstance
    instancesInsert := fun _ _ _ => Except.ok doneOp
    instancesDelete := fun _ _ _ => Except.ok doneOp
    zonesGet := fun _ _ => Except.ok ()
    zoneOperationsGet := fun _ _ _ i =>
      if i = 0 then Except.ok pendingOp else Except.ok doneOp
    secretsGet := fun _ _ => Except.ok { data := [(userDataSecretKey, [104, 105])] } }

def notFoundEnv : Env :=
  { sampleEnv with
    instancesGet := fun _ _ _ => Except.error (GoErr.googleapi 404 "not found") }

def failingGetEnv : Env :=
  { sampleEnv with
    instancesGet := fun _ _ _ => Except.error (GoErr.errorf "boom") }

/-- C3 witness: one non-terminal reply followed by a terminal success is
accepted after exactly two fetches. -/
theorem c3_waitUntilOperationCompleted_spec_witness :
    waitUntilOperationCompleted sampleEnv "testProject" "us-east1-b" "op-1" =
      { outcome := PollOutcome.success doneOp, fetches := 2 } :=
  (((c3_waitUntilOperationCompleted_spec sampleEnv "testProject" "us-east1-b" "op-1" 1).2.1
      (by decide)
      (fun j hj => by
        have hj0 : j = 0 := by omega
        subst hj0
        exact ⟨pendingOp, rfl, by decide⟩)).1
    doneOp rfl rfl rfl).1

/-- C1: `exists` returns `(true, nil)` exactly when the zone resolves and
`InstancesGet` returns an instance; `(false, nil)` exactly when the zone
resolves and `InstancesGet` fails with a recognized 404; and `(false, e)`
with a non-nil error exactly when the zone lookup fails or `InstancesGet`
fails with anything other than a 404. -/
theorem c1_exists_spec (env : Env) (s : MachineScope) :
    ((existsR env s).1 = (true, none) ↔
      env.zonesGet s.projectID s.providerSpec.zone = Except.ok () ∧
      ∃ inst, env.instancesGet s.projectID s.providerSpec.zone s.machine.name =
        Except.ok inst) ∧
    ((existsR env s).1 = (false, none) ↔
      env.zonesGet s.projectID s.providerSpec.zone = Except.ok () ∧
      ∃ e, env.instancesGet s.projectID s.providerSpec.zone s.machine.name =
        Except.error e ∧ isNotFoundError e = true) ∧
    (((existsR env s).1.1 = false ∧ (existsR env s).1.2 ≠ none) ↔
      (∃ e, env.zonesGet s.projectID s.providerSpec.zone = Except.error e) ∨
      (∃ e, env.instancesGet s.projectID s.providerSpec.zone s.machine.name =
        Except.error e ∧ isNotFoundError e = false)) := by
  cases hz : env.zonesGet s.projectID s.providerSpec.zone with
  | error ez =>
    have hres : (existsR env s).1 =
        (false, some (GoErr.errorf ("unable to verify project/zone exists: " ++
          s.projectID ++ "/" ++ s.providerSpec.zone ++ "; err: " ++ renderErr ez))) := by
      simp [existsR, validateMachine, hz]
    refine ⟨?_, ?_, ?_⟩
    · rw [hres]; simp [hz]
    · rw [hres]; simp [hz]
    · rw [hres]
      simp only [Prod.fst, Prod.snd, ne_eq, reduceCtorEq, not_false_iff, and_self, true_iff]
      exact Or.inl ⟨ez, rfl⟩
  | ok u =>
    cases u
    cases hi : env.instancesGet s.projectID s.providerSpec.zone s.machine.name with
    | ok inst =>
      have hres : (existsR env s).1 = (true, none) := by
        simp [existsR, validateMachine, hz, hi]
      refine ⟨?_, ?_, ?_⟩
      · rw [hres]; simp [hz, hi]
      · rw [hres]; simp [hz, hi]
      · rw [hres]; simp [hz, hi]
    | error e =>
      cases hnf : isNotFoundError e with
      | true =>
        have hres : (existsR env s).1 = (false, none) := by
          simp [existsR, validateMachine, hz, hi, hnf]
        refine ⟨?_, ?_, ?_⟩
        · rw [hres]; simp [hz, hi]
        · rw [hres]; simp [hz, hi, hnf]
        · rw [hres]; simp [hz, hi, hnf]
      | false =>
        have hres : (existsR env s).1 =
            (false, some (GoErr.errorf ("error getting running instances: " ++
              renderErr e))) := by
          simp [existsR, validateMachine, hz, hi, hnf]
        refine ⟨?_, ?_, ?_⟩
        · rw [hres]; simp [hz, hi]
        · rw [hres]; simp [hz, hi, hnf]
        · rw [hres]; simp [hz, hi, hnf]

/-- C1 witness: with a resolvable zone and an instance present, `exists`
returns `(true, nil)`. -/
theorem c1_exists_spec_witness :
    (existsR sampleEnv sampleScope).1 = (true, none) :=
  ((c1_exists_spec sampleEnv sampleScope).1).mpr ⟨rfl, sampleInstance, rfl⟩

theorem existsR_calls_no_delete (env : Env) (s : MachineScope) :
    ∀ p z n, ProviderCall.instancesDelete p z n ∉ (existsR env s).2 := by
  intro p z n
  cases hz : env.zonesGet s.projectID s.providerSpec.zone with
  | error ez => simp [existsR, validateMachine, hz]
  | ok u =>
    cases hi : env.instancesGet s.projectID s.providerSpec.zone s.machine.name with
    | ok inst => simp [existsR, validateMachine, hz, hi]
    | error e =>
      cases hnf : isNotFoundError e with
      | true => simp [existsR, validateMachine, hz, hi, hnf]
      | false => simp [existsR, validateMachine, hz, hi, hnf]

/-- C2: when the target instance does not exist (`exists` returns
`(false, nil)`) `delete` succeeds without ever issuing an
`InstancesDelete` call; when the instance exists, `delete` submits
`InstancesDelete` and polls the returned operation with the same
Operation Poller (`waitUntilOperationCompleted`) used by `create`,
succeeding exactly when the poll does. -/
theorem c2_delete_spec (env : Env) (s : MachineScope) :
    ((existsR env s).1 = (false, none) →
      deleteR env s = (none, (existsR env s).2) ∧
      ∀ p z n, ProviderCall.instancesDelete p z n ∉ (deleteR env s).2) ∧
    (∀ op, (existsR env s).1 = (true, none) →
      env.instancesDelete s.projectID s.providerSpec.zone s.machine.name = Except.ok op →
      (deleteR env s).2 = (existsR env s).2 ++
        [ProviderCall.instancesDelete s.projectID s.providerSpec.zone s.machine.name] ++
        pollCalls s.projectID s.providerSpec.zone op.name
          (waitUntilOperationCompleted env s.projectID s.providerSpec.zone op.name).fetches ∧
      ((deleteR env s).1 = none ↔
        pollErr (waitUntilOperationCompleted env s.projectID
          s.providerSpec.zone op.name).outcome = none)) := by
  constructor
  · intro hex
    have h1 : (existsR env s).1.1 = false := by rw [hex]
    have h2 : (existsR env s).1.2 = none := by rw [hex]
    constructor
    · simp [deleteR, h1, h2]
    · intro p z n
      have hcalls : (deleteR env s).2 = (existsR env s).2 := by simp [deleteR, h1, h2]
      rw [hcalls]
      exact existsR_calls_no_delete env s p z n
  · intro op hex hdel
    have h1 : (existsR env s).1.1 = true := by rw [hex]
    have h2 : (existsR env s).1.2 = none := by rw [hex]
    cases hpe : pollErr (waitUntilOperationCompleted env s.projectID
        s.providerSpec.zone op.name).outcome with
    | none =>
      constructor
      · simp [deleteR, h1, h2, hdel, hpe]
      · simp [deleteR, h1, h2, hdel, hpe]
    | some e =>
      constructor
      · simp [deleteR, h1, h2, hdel, hpe]
      · simp [deleteR, h1, h2, hdel, hpe]

/-- C2 witness: against a provider whose instance lookup reports 404,
`delete` is a successful no-op issuing no delete call. -/
theorem c2_delete_spec_witness :
    deleteR notFoundEnv sampleScope = (none, (existsR notFoundEnv sampleScope).2) ∧
    ProviderCall.instancesDelete "testProject" "us-east1-b" "testInstance" ∉
      (deleteR notFoundEnv sampleScope).2 :=
  ⟨((c2_delete_spec notFoundEnv sampleScope).1 (by decide)).1,
   ((c2_delete_spec notFoundEnv sampleScope).1 (by decide)).2
     "testProject" "us-east1-b" "testInstance"⟩

/-- C4: the descriptor built by `create` always carries a first metadata
entry keyed `"user-data"` whose value is the fetched user data string;
with no `UserDataSecret` reference that string is `""` (the entry is
present, never absent), and with a reference it is the base64 encoding
of the secret's `userData` bytes. -/
theorem c4_create_userdata_spec (env : Env) (s : MachineScope) :
    (∀ u, (getCustomUserData env s).1 = Except.ok u →
      ∃ rest, (buildInstance s u).metadata =
        some { items := { key := "user-data", value := some u } :: rest }) ∧
    (s.providerSpec.userDataSecret = none →
      (getCustomUserData env s).1 = Except.ok "") ∧
    (∀ secretName secret data, s.providerSpec.userDataSecret = some secretName →
      env.secretsGet s.machine.ns secretName = Except.ok secret →
      secret.data.lookup userDataSecretKey = some data →
      (getCustomUserData env s).1 = Except.ok (base64Encode data)) := by
  refine ⟨?_, ?_, ?_⟩
  · intro u _
    exact ⟨_, rfl⟩
  · intro h
    simp [getCustomUserData, h]
  · intro secretName secret data href hsec hkey
    simp [getCustomUserData, href, hsec, hkey]

/-- A scope referencing a user-data secret, for the C4 witness. -/
def secretScope : MachineScope :=
  { sampleScope with
    providerSpec := { sampleSpec with userDataSecret := some "worker-user-data" } }

/-- C4 witness: fetching bytes `"hi"` through the referenced secret
yields their base64 encoding as the user-data metadata value, present as
the first entry. -/
theorem c4_create_userdata_spec_witness :
    (getCustomUserData sampleEnv secretScope).1 =
      Except.ok (base64Encode [104, 105]) ∧
    ∃ rest, (buildInstance secretScope (base64Encode [104, 105])).metadata =
      some { items :=
              { key := "user-data", value := some (base64Encode [104, 105]) } :: rest } :=
  ⟨(c4_create_userdata_spec sampleEnv secretScope).2.2 "worker-user-data"
      { data := [(userDataSecretKey, [104, 105])] } [104, 105] rfl rfl (by decide),
   (c4_create_userdata_spec sampleEnv secretScope).1 (base64Encode [104, 105])
     ((c4_create_userdata_spec sampleEnv secretScope).2.2 "worker-user-data"
       { data := [(userDataSecretKey, [104, 105])] } [104, 105] rfl rfl (by decide))⟩

/-- C5: from a spec with exactly two disks (first boot, second not) and
one network interface, the built descriptor has exactly two attached
disks, in spec order with the boot flags preserved, and exactly one
network interface whose access-configuration list is the single default
(ephemeral) access configuration. -/
theorem c5_build_disks_nics_spec (s : MachineScope) (u : String)
    (d1 d2 : GCPDisk) (nic : GCPNetworkInterface)
    (hd : s.providerSpec.disks = [d1, d2])
    (hb1 : d1.boot = true) (hb2 : d2.boot = false)
    (hn : s.providerSpec.networkInterfaces = [nic]) :
    ∃ a1 a2 cn, (buildInstance s u).disks = [a1, a2] ∧
      a1.boot = true ∧ a2.boot = false ∧
      (buildInstance s u).networkInterfaces = [cn] ∧
      cn.accessConfigs = [defaultAccessConfig] := by
  refine ⟨toAttachedDisk s.providerSpec.zone d1, toAttachedDisk s.providerSpec.zone d2,
    toComputeNIC s.projectID s.providerSpec.region nic, ?_, ?_, ?_, ?_, ?_⟩
  · simp [buildInstance, hd]
  · simpa [toAttachedDisk] using hb1
  · simpa [toAttachedDisk] using hb2
  · simp [buildInstance, hn]
  · simp [toComputeNIC]

/-- A two-disk, one-interface provider spec for the C5 witness. -/
def twoDiskScope : MachineScope :=
  { sampleScope with
    providerSpec :=
      { sampleSpec with
        disks :=
          [ { autoDelete := true, boot := true, sizeGb := 128, type := "pd-ssd",
              image := "img", labels := [] },
            { autoDelete := false, boot := false, sizeGb := 500, type := "pd-standard",
              image := "img2", labels := [] } ]
        networkInterfaces := [{ network := "net", subnetwork := "sub" }] } }

/-- C5 witness: the two-disk, one-interface spec produces exactly two
attached disks with preserved boot flags and one interface with the
default access configuration. -/
theorem c5_build_disks_nics_spec_witness :
    ∃ a1 a2 cn, (buildInstance twoDiskScope "").disks = [a1, a2] ∧
      a1.boot = true ∧ a2.boot = false ∧
      (buildInstance twoDiskScope "").networkInterfaces = [cn] ∧
      cn.accessConfigs = [defaultAccessConfig] :=
  c5_build_disks_nics_spec twoDiskScope ""
    { autoDelete := true, boot := true, sizeGb := 128, type := "pd-ssd",
      image := "img", labels := [] }
    { autoDelete := false, boot := false, sizeGb := 500, type := "pd-standard",
      image := "img2", labels := [] }
    { network := "net", subnetwork := "sub" } rfl rfl rfl rfl

/-- C6: the status refresh run by `update` (and after `create`) fails when
the fetched instance has no network interfaces; otherwise it rewrites the
addresses to the first interface's internal IP followed by one ExternalIP
entry per access configuration in provider order, and rewrites the
provider status's instance state and identifier and the machine's derived
provider ID. -/
theorem c6_reconcile_spec (env : Env) (s : MachineScope) (inst : ComputeInstance)
    (hget : env.instancesGet s.projectID s.providerSpec.zone s.machine.name =
      Except.ok inst) :
    (inst.networkInterfaces = [] →
      (reconcileMachineWithCloudState env s).2.1.isSome = true ∧
      (reconcileMachineWithCloudState env s).1 = s) ∧
    (∀ ni rest, inst.networkInterfaces = ni :: rest →
      (reconcileMachineWithCloudState env s).2.1 = none ∧
      (reconcileMachineWithCloudState env s).1.machine.status.addresses =
        { type := "InternalIP", address := ni.networkIP } ::
          ni.accessConfigs.map (fun config =>
            ({ type := "ExternalIP", address := config.natIP } : NodeAddress)) ∧
      (reconcileMachineWithCloudState env s).1.providerStatus =
        { instanceState := some inst.status, instanceID := some inst.name } ∧
      (reconcileMachineWithCloudState env s).1.machine.spec.providerID =
        some s.providerID) := by
  constructor
  · intro hni
    constructor
    · simp [reconcileMachineWithCloudState, hget, hni]
    · simp [reconcileMachineWithCloudState, hget, hni]
  · intro ni rest hni
    refine ⟨?_, ?_, ?_, ?_⟩ <;> simp [reconcileMachineWithCloudState, hget, hni]

/-- C6 witness: refreshing against the sample instance yields its internal
IP first and its single external IP second. -/
theorem c6_reconcile_spec_witness :
    (reconcileMachineWithCloudState sampleEnv sampleScope).2.1 = none ∧
    (reconcileMachineWithCloudState sampleEnv sampleScope).1.machine.status.addresses =
      { type := "InternalIP", address := sampleNic.networkIP } ::
        sampleNic.accessConfigs.map (fun config =>
          ({ type := "ExternalIP", address := config.natIP } : NodeAddress)) :=
  ⟨((c6_reconcile_spec sampleEnv sampleScope sampleInstance rfl).2 sampleNic [] rfl).1,
   ((c6_reconcile_spec sampleEnv sampleScope sampleInstance rfl).2 sampleNic [] rfl).2.1⟩

/-- C7: `update` is idempotent against a fixed remote instance reply:
after a successful `update`, running `update` again leaves the scope
(addresses, provider ID, provider status) exactly as the first run did,
and again succeeds. -/
theorem c7_update_idempotent (env : Env) (s : MachineScope)
    (h : (update env s).2.1 = none) :
    (update env (update env s).1).1 = (update env s).1 ∧
    (update env (update env s).1).2.1 = none := by
  cases hget : env.instancesGet s.projectID s.providerSpec.zone s.machine.name with
  | error e => simp [update, reconcileMachineWithCloudState, hget] at h
  | ok inst =>
    cases hni : inst.networkInterfaces with
    | nil => simp [update, reconcileMachineWithCloudState, hget, hni] at h
    | cons ni rest =>
      constructor
      · simp [update, reconcileMachineWithCloudState, hget, hni]
      · simp [update, reconcileMachineWithCloudState, hget, hni]

/-- C7 witness: two successive updates against the sample environment
agree on the resulting scope and both succeed. -/
theorem c7_update_idempotent_witness :
    (update sampleEnv (update sampleEnv sampleScope).1).1 =
      (update sampleEnv sampleScope).1 ∧
    (update sampleEnv (update sampleEnv sampleScope).1).2.1 = none :=
  c7_update_idempotent sampleEnv sampleScope rfl

/-- C8: status fields are mutated only after a successful provider read:
a failed `InstancesGet`, or an instance with no network interfaces,
leaves the scope exactly as it was, under both `update` and the refresh
deferred by `create`. -/
theorem c8_status_mutation_spec (env : Env) (s : MachineScope) :
    (∀ e, env.instancesGet s.projectID s.providerSpec.zone s.machine.name =
        Except.error e →
      (update env s).1 = s ∧ (create env s).1 = s) ∧
    (∀ inst, env.instancesGet s.projectID s.providerSpec.zone s.machine.name =
        Except.ok inst →
      inst.networkInterfaces = [] →
      (update env s).1 = s ∧ (create env s).1 = s) ∧
    ((reconcileMachineWithCloudState env s).2.1.isSome = true →
      (reconcileMachineWithCloudState env s).1 = s) := by
  refine ⟨?_, ?_, ?_⟩
  · intro e he
    constructor
    · simp [update, reconcileMachineWithCloudState, he]
    · simp [create, reconcileMachineWithCloudState, he]
  · intro inst hget hni
    constructor
    · simp [update, reconcileMachineWithCloudState, hget, hni]
    · simp [create, reconcileMachineWithCloudState, hget, hni]
  · cases hget : env.instancesGet s.projectID s.providerSpec.zone s.machine.name with
    | error e => simp [reconcileMachineWithCloudState, hget]
    | ok inst =>
      cases hni : inst.networkInterfaces with
      | nil => simp [reconcileMachineWithCloudState, hget, hni]
      | cons ni rest => simp [reconcileMachineWithCloudState, hget, hni]

/-- C8 witness: with a failing instance lookup, neither `update` nor
`create` touches the previously persisted scope. -/
theorem c8_status_mutation_spec_witness :
    (update failingGetEnv sampleScope).1 = sampleScope ∧
    (create failingGetEnv sampleScope).1 = sampleScope :=
  (c8_status_mutation_spec failingGetEnv sampleScope).1 (GoErr.errorf "boom") rfl

/-- C9: `create` always attempts the deferred state refresh before
returning — on success and also when the body (including the operation
poll) failed — and the refresh's own outcome never alters create's
return value: create's error is exactly the body's error, its scope is
exactly the refresh's scope, and the refresh's instance fetch is always
among the issued calls. -/
theorem c9_create_refresh_spec (env : Env) (s : MachineScope) :
    (create env s).2.1 = (createBody env s).1 ∧
    (create env s).1 = (reconcileMachineWithCloudState env s).1 ∧
    ProviderCall.instancesGet s.projectID s.providerSpec.zone s.machine.name ∈
      (create env s).2.2 := by
  refine ⟨rfl, rfl, ?_⟩
  show ProviderCall.instancesGet s.projectID s.providerSpec.zone s.machine.name ∈
    (createBody env s).2 ++ (reconcileMachineWithCloudState env s).2.2
  rw [reconcile_calls env s]
  simp

/-- C10: `validateMachine` returns nil for every machine and provider
spec, so the validation-failure branches are unreachable: `create` never
returns an InvalidMachineConfiguration error, and every `exists` failure
stems from the zone lookup or a non-404 instance lookup, never from
validation. -/
theorem c10_validateMachine_trivial :
    (∀ m ps, validateMachine m ps = none) ∧
    (∀ env s msg, (create env s).2.1 ≠
      some (GoErr.invalidMachineConfiguration msg)) ∧
    (∀ (env : Env) (s : MachineScope), (existsR env s).1.2 = none ∨
      (∃ e, env.zonesGet s.projectID s.providerSpec.zone = Except.error e) ∨
      (∃ e, env.instancesGet s.projectID s.providerSpec.zone s.machine.name =
        Except.error e ∧ isNotFoundError e = false)) := by
  refine ⟨fun m ps => rfl, ?_, ?_⟩
  · intro env s msg
    show (createBody env s).1 ≠ some (GoErr.invalidMachineConfiguration msg)
    cases hud : (getCustomUserData env s).1 with
    | error e => simp [createBody, validateMachine, hud]
    | ok u =>
      cases hins : env.instancesInsert s.projectID s.providerSpec.zone
          (buildInstance s u) with
      | error e => simp [createBody, validateMachine, hud, hins]
      | ok op =>
        cases hpe : pollErr (waitUntilOperationCompleted env s.projectID
            s.providerSpec.zone op.name).outcome with
        | none => simp [createBody, validateMachine, hud, hins, hpe]
        | some e => simp [createBody, validateMachine, hud, hins, hpe]
  · intro env s
    cases hz : env.zonesGet s.projectID s.providerSpec.zone with
    | error ez => exact Or.inr (Or.inl ⟨ez, rfl⟩)
    | ok u =>
      cases hi : env.instancesGet s.projectID s.providerSpec.zone s.machine.name with
      | ok inst => exact Or.inl (by simp [existsR, validateMachine, hz, hi])
      | error e =>
        cases hnf : isNotFoundError e with
        | true => exact Or.inl (by simp [existsR, validateMachine, hz, hi, hnf])
        | false => exact Or.inr (Or.inr ⟨e, rfl, hnf⟩)

/-- C10 witness: at the sample inputs validation returns nil and
`create` does not report an InvalidMachineConfiguration error. -/
theorem c10_validateMachine_trivial_witness :
    validateMachine sampleScope.machine sampleSpec = none ∧
    (create sampleEnv sampleScope).2.1 ≠
      some (GoErr.invalidMachineConfiguration "bad") :=
  ⟨c10_validateMachine_trivial.1 sampleScope.machine sampleSpec,
   c10_validateMachine_trivial.2.1 sampleEnv sampleScope "bad"⟩
